import Mathlib

/-!
Shallow embedding of the task-store core of `src/todo_manager.py`
(class `TodoManager`): the record model, the mutating operations
`add_todo` / `update_todo` / `delete_todo` / `complete_todo`, the read
operations `show_todo` / `list_todos` / `search_todos` /
`get_statistics`, and the loader `load_todos`.

Modelling conventions:
- Timestamps (`datetime.now().isoformat()`) are modelled as a `Nat`
  parameter `now` threaded into the operations that stamp them.
- Text (`title`, `description`, search queries, dates) is modelled as
  `List Char`; Python `str.lower()` is `List.map Char.toLower` and the
  Python `in` substring test is the `isSubstr` function below.
- `priority` and `status` are modelled as the enumerations the CLI
  admits (`choices=["low","medium","high"]`, `["pending","completed"]`).
- Console output is not modelled except where it is the only signal of
  an outcome: the "not found" message of `update_todo` / `delete_todo`
  becomes a `found : Bool` field, and the parse-error message of
  `load_todos` becomes a reported flag.
- `save_todos` (the file write) is modelled as a `saved : Bool` flag
  recording whether the operation called it.
-/

inductive Priority
  | low
  | medium
  | high
deriving DecidableEq, Repr

inductive Status
  | pending
  | completed
deriving DecidableEq, Repr

/-- The task record built by `add_todo` (todo_manager.py lines 35-44):
a dict with keys id, title, description, priority, status, created_at,
due_date, completed_at. -/
structure Todo where
  id : Int
  title : List Char
  description : List Char
  priority : Priority
  status : Status
  created_at : Nat
  due_date : Option (List Char)
  completed_at : Option Nat
deriving DecidableEq, Repr

/-- Result of a mutating repository call: the collection afterwards,
whether `save_todos` ran, and whether the id was found (the code prints
"not found" and skips the save otherwise). -/
structure OpResult where
  todos : List Todo
  saved : Bool
  found : Bool
deriving DecidableEq, Repr

/-- Result of `add_todo`: the collection afterwards, the record that was
appended, and the (always-performed) save. -/
structure AddResult where
  todos : List Todo
  created : Todo
  saved : Bool
deriving DecidableEq, Repr

/-- Embedding of `add_todo` (lines 33-48): builds the record with
`id = len(self.todos) + 1`, `status = "pending"`, `completed_at = None`,
appends it and saves.  There is no validation of `title`. -/
def add_todo (title description : List Char) (priority : Priority)
    (due_date : Option (List Char)) (now : Nat) (todos : List Todo) :
    AddResult :=
  let todo : Todo :=
    { id := (todos.length : Int) + 1
      title := title
      description := description
      priority := priority
      status := Status.pending
      created_at := now
      due_date := due_date
      completed_at := none }
  ⟨todos ++ [todo], todo, true⟩

/-- One `key, value` entry of the `**kwargs` mapping passed to
`update_todo`.  Every key that already exists on the record dict is
applied (`if key in todo`), so all eight field names are possible keys. -/
inductive FieldChange
  | setId (v : Int)
  | setTitle (v : List Char)
  | setDescription (v : List Char)
  | setPriority (v : Priority)
  | setStatus (v : Status)
  | setCreatedAt (v : Nat)
  | setDueDate (v : Option (List Char))
  | setCompletedAt (v : Option Nat)
deriving DecidableEq, Repr

/-- One iteration of the `for key, value in kwargs.items()` loop of
`update_todo` (lines 87-91): assign the field, and when the key is
`status` and the value `"completed"`, stamp `completed_at` with the
current time. -/
def applyChange (now : Nat) (t : Todo) (c : FieldChange) : Todo :=
  match c with
  | FieldChange.setId v => { t with id := v }
  | FieldChange.setTitle v => { t with title := v }
  | FieldChange.setDescription v => { t with description := v }
  | FieldChange.setPriority v => { t with priority := v }
  | FieldChange.setStatus v =>
      if v = Status.completed then
        { t with status := v, completed_at := some now }
      else
        { t with status := v }
  | FieldChange.setCreatedAt v => { t with created_at := v }
  | FieldChange.setDueDate v => { t with due_date := v }
  | FieldChange.setCompletedAt v => { t with completed_at := v }

/-- Embedding of `update_todo` (lines 83-97): scan for the first record with the
given id, apply every kwargs entry to it, save and return; print "not
found" (no save, no mutation) when no record matches. -/
def update_todo (todo_id : Int) (changes : List FieldChange) (now : Nat) :
    List Todo → OpResult
  | [] => ⟨[], false, false⟩
  | t :: rest =>
    if t.id = todo_id then
      ⟨changes.foldl (applyChange now) t :: rest, true, true⟩
    else
      let r := update_todo todo_id changes now rest
      ⟨t :: r.todos, r.saved, r.found⟩

/-- Embedding of `delete_todo` (lines 99-108): pop the first record with the given
id and save; print "not found" otherwise. -/
def delete_todo (todo_id : Int) : List Todo → OpResult
  | [] => ⟨[], false, false⟩
  | t :: rest =>
    if t.id = todo_id then
      ⟨rest, true, true⟩
    else
      let r := delete_todo todo_id rest
      ⟨t :: r.todos, r.saved, r.found⟩

/-- Embedding of `complete_todo` (lines 110-112): literally
`self.update_todo(todo_id, status="completed")`. -/
def complete_todo (todo_id : Int) (now : Nat) (todos : List Todo) :
    OpResult :=
  update_todo todo_id [FieldChange.setStatus Status.completed] now todos

/-- Embedding of `show_todo` (lines 114-132): point lookup of the first record with
the given id; prints "not found" when none matches (modelled as
`none`).  No mutation, no save. -/
def show_todo (todo_id : Int) (todos : List Todo) : Option Todo :=
  todos.find? (fun t => t.id = todo_id)

/-- Embedding of `list_todos` (lines 50-58): filter by status when a status filter is
supplied, then by priority when a priority filter is supplied; the rest
of the function only prints.  `None` (absent CLI flag) means no filter. -/
def list_todos (status : Option Status) (priority : Option Priority)
    (todos : List Todo) : List Todo :=
  let f1 :=
    match status with
    | none => todos
    | some s => todos.filter (fun t => t.status = s)
  match priority with
  | none => f1
  | some p => f1.filter (fun t => t.priority = p)

/-- Python `str.lower()` on our character-list model of text. -/
def lowerStr (s : List Char) : List Char :=
  s.map Char.toLower

/-- The Python substring test `needle in hay` on our character-list
model: `needle` occurs contiguously somewhere in `hay`. -/
def isSubstr (needle : List Char) : List Char → Bool
  | [] => needle.isEmpty
  | c :: rest => needle.isPrefixOf (c :: rest) || isSubstr needle rest

/-- The match test of `search_todos` (lines 140-141):
`query_lower in todo["title"].lower() or query_lower in
todo["description"].lower()`. -/
def matchesQuery (query : List Char) (t : Todo) : Bool :=
  isSubstr (lowerStr query) (lowerStr t.title) ||
    isSubstr (lowerStr query) (lowerStr t.description)

/-- Embedding of `search_todos` (lines 134-142): walk the collection in order,
keeping each record whose lowered title or description contains the
lowered query. -/
def search_todos (query : List Char) (todos : List Todo) : List Todo :=
  todos.filter (matchesQuery query)

/-- The statistics record printed by `get_statistics`.
`completion_rate` is the exact value `completed / total * 100` that the
code formats with one decimal place, and is `none` when `total == 0`
(the code prints "No todos" instead of dividing). -/
structure Stats where
  total : Nat
  completed : Nat
  pending : Nat
  completion_rate : Option ℚ
  priorities : List (Priority × Nat)
deriving DecidableEq, Repr

/-- One step of the priority-breakdown loop (lines 167-170):
`priorities[priority] = priorities.get(priority, 0) + 1` on an
insertion-ordered dict, modelled as an association list. -/
def bumpPriority (acc : List (Priority × Nat)) (p : Priority) :
    List (Priority × Nat) :=
  match acc with
  | [] => [(p, 1)]
  | (q, n) :: rest =>
    if q = p then (q, n + 1) :: rest else (q, n) :: bumpPriority rest p

/-- Embedding of `get_statistics` (lines 153-174): total, completed count, pending as
the difference, the completion rate guarded by `total > 0`, and the
priority histogram built in one pass. -/
def get_statistics (todos : List Todo) : Stats :=
  let total := todos.length
  let completed :=
    (todos.filter (fun t => t.status = Status.completed)).length
  { total := total
    completed := completed
    pending := total - completed
    completion_rate :=
      if total > 0 then some ((completed : ℚ) / (total : ℚ) * 100)
      else none
    priorities := todos.foldl (fun acc t => bumpPriority acc t.priority) [] }

/-- Rounding of a rational percentage to one decimal place, as a count
of tenths of a percent (the `:.1f` format of line 164). -/
def rateTenths (q : ℚ) : Int :=
  round (q * 10)

/-- Embedding of `load_todos` (lines 17-26), with the file system and the JSON
decoder abstracted: `file` is the backing file's content when it
exists, and `decode` stands for `json.load`, returning `none` exactly
when the Python call raises `JSONDecodeError`.  The second component
records whether the error message of line 24 was printed. -/
def load_todos (file : Option (List Char))
    (decode : List Char → Option (List Todo)) : List Todo × Bool :=
  match file with
  | none => ([], false)
  | some content =>
    match decode content with
    | some ts => (ts, false)
    | none => ([], true)

/-- Does this kwargs entry assign one of the two fields the spec calls
immutable (`id`, `created_at`)? -/
def touchesImmutable : FieldChange → Bool
  | FieldChange.setId _ => true
  | FieldChange.setCreatedAt _ => true
  | _ => false

/-- A concrete stored record used for witnesses and counterexamples. -/
def sampleTodo : Todo :=
  { id := 1
    title := ['m']
    description := ['d']
    priority := Priority.medium
    status := Status.pending
    created_at := 0
    due_date := none
    completed_at := none }

/-- A concrete three-task collection with exactly one completed task,
matching the statistics scenario of the spec. -/
def ex3 : List Todo :=
  [{ id := 1, title := ['a'], description := [], priority := Priority.high,
     status := Status.completed, created_at := 0, due_date := none,
     completed_at := some 5 },
   { id := 2, title := ['b'], description := [], priority := Priority.medium,
     status := Status.pending, created_at := 1, due_date := none,
     completed_at := none },
   { id := 3, title := ['c'], description := [], priority := Priority.low,
     status := Status.pending, created_at := 2, due_date := none,
     completed_at := none }]

/-- The add of a repository run add("a"), add("b"), delete(1), add("c"):
after the delete the collection holds one task (id 2), so the third add
computes `len(self.todos) + 1 = 2` again and a duplicate id appears. -/
def dupAdd : AddResult :=
  add_todo ['c'] [] Priority.medium none 3
    (delete_todo 1
      (add_todo ['b'] [] Priority.medium none 2
        (add_todo ['a'] [] Priority.medium none 1 ([] : List Todo)).todos).todos).todos

/-! ### Helper lemmas -/

theorem update_todo_not_found (i : Int) (ch : List FieldChange) (now : Nat)
    (todos : List Todo) (h : ∀ t ∈ todos, t.id ≠ i) :
    update_todo i ch now todos = ⟨todos, false, false⟩ := by
  induction todos with
  | nil => rfl
  | cons hd rest ih =>
    have hhd : hd.id ≠ i := h hd (List.mem_cons_self hd rest)
    have hrest : ∀ t ∈ rest, t.id ≠ i :=
      fun t ht => h t (List.mem_cons_of_mem hd ht)
    simp [update_todo, hhd, ih hrest]

theorem delete_todo_not_found (i : Int) (todos : List Todo)
    (h : ∀ t ∈ todos, t.id ≠ i) :
    delete_todo i todos = ⟨todos, false, false⟩ := by
  induction todos with
  | nil => rfl
  | cons hd rest ih =>
    have hhd : hd.id ≠ i := h hd (List.mem_cons_self hd rest)
    have hrest : ∀ t ∈ rest, t.id ≠ i :=
      fun t ht => h t (List.mem_cons_of_mem hd ht)
    simp [delete_todo, hhd, ih hrest]

theorem show_todo_not_found (i : Int) (todos : List Todo)
    (h : ∀ t ∈ todos, t.id ≠ i) :
    show_todo i todos = none := by
  apply List.find?_eq_none.mpr
  intro t ht
  simpa using h t ht

theorem delete_todo_length (i : Int) (todos : List Todo)
    (h : ∃ t ∈ todos, t.id = i) :
    (delete_todo i todos).todos.length + 1 = todos.length := by
  induction todos with
  | nil => simp at h
  | cons hd rest ih =>
    by_cases hhd : hd.id = i
    · simp [delete_todo, hhd]
    · obtain ⟨t, ht, hti⟩ := h
      rcases List.mem_cons.mp ht with rfl | hmem
      · exact absurd hti hhd
      · simp [delete_todo, hhd, ih ⟨t, hmem, hti⟩]

theorem delete_todo_countP (i : Int) (todos : List Todo) :
    (delete_todo i todos).todos.countP (fun t => decide (t.id = i)) =
      todos.countP (fun t => decide (t.id = i)) - 1 := by
  induction todos with
  | nil => rfl
  | cons hd rest ih =>
    by_cases hhd : hd.id = i
    · simp [delete_todo, hhd, List.countP_cons]
    · simp [delete_todo, hhd, List.countP_cons, ih]

theorem complete_todo_found (i : Int) (now : Nat) (todos : List Todo)
    (h : ∃ t ∈ todos, t.id = i) :
    ∃ t, show_todo i (complete_todo i now todos).todos = some t ∧
      t.status = Status.completed ∧ t.completed_at = some now ∧
      t ∈ (complete_todo i now todos).todos ∧ t.id = i := by
  induction todos with
  | nil => simp at h
  | cons hd rest ih =>
    by_cases hhd : hd.id = i
    · refine ⟨{ hd with status := Status.completed, completed_at := some now }, ?_, rfl, rfl, ?_, hhd⟩
      · simp [complete_todo, update_todo, hhd, show_todo, List.find?,
          applyChange]
      · simp [complete_todo, update_todo, hhd, applyChange]
    · obtain ⟨t, ht, hti⟩ := h
      rcases List.mem_cons.mp ht with rfl | hmem
      · exact absurd hti hhd
      · obtain ⟨t', hshow, hst, hca, hmem', hid⟩ := ih ⟨t, hmem, hti⟩
        refine ⟨t', ?_, hst, hca, ?_, hid⟩
        · simpa [complete_todo, update_todo, hhd, show_todo, List.find?]
            using hshow
        · simp only [complete_todo, update_todo, hhd, if_neg hhd] at *
          exact List.mem_cons_of_mem hd hmem'

theorem applyChange_immutable (now : Nat) (t : Todo) (c : FieldChange)
    (h : touchesImmutable c = false) :
    (applyChange now t c).id = t.id ∧
      (applyChange now t c).created_at = t.created_at := by
  cases c with
  | setStatus v =>
    constructor <;> simp [applyChange] <;> split <;> rfl
  | _ => first
    | exact ⟨rfl, rfl⟩
    | simp [touchesImmutable] at h

theorem foldl_applyChange_immutable (now : Nat) (changes : List FieldChange)
    (t : Todo) (h : ∀ c ∈ changes, touchesImmutable c = false) :
    (changes.foldl (applyChange now) t).id = t.id ∧
      (changes.foldl (applyChange now) t).created_at = t.created_at := by
  induction changes generalizing t with
  | nil => exact ⟨rfl, rfl⟩
  | cons c cs ih =>
    have hc := applyChange_immutable now t c (h c (List.mem_cons_self c cs))
    have hcs := ih (applyChange now t c)
      (fun x hx => h x (List.mem_cons_of_mem c hx))
    exact ⟨hcs.1.trans hc.1, hcs.2.trans hc.2⟩

theorem isSubstr_nil_left (hay : List Char) : isSubstr [] hay = true := by
  induction hay with
  | nil => rfl
  | cons c rest ih => simp [isSubstr, List.isPrefixOf, ih]

/-! ### Claim theorems -/

/-- C1 (amended): the id returned by `add_todo` is
`len(self.todos) + 1`, so it is unique among the tasks stored
immediately after the call exactly when no previously-stored task
already carries that id; this holds in particular in every state built
by adds alone, but can fail after deletes. -/
theorem C1_add_id_unique (title desc : List Char) (p : Priority)
    (dd : Option (List Char)) (now : Nat) (todos : List Todo)
    (h : ∀ t ∈ todos, t.id ≠ (todos.length : Int) + 1) :
    (add_todo title desc p dd now todos).todos.countP
      (fun t => decide
        (t.id = (add_todo title desc p dd now todos).created.id)) = 1 := by
  have h0 : todos.countP
      (fun t => decide (t.id = (todos.length : Int) + 1)) = 0 :=
    List.countP_eq_zero.mpr (fun t ht => by simpa using h t ht)
  simp [add_todo, List.countP_append, List.countP_cons, h0]

/-- C1 witness: on the empty repository the added task's id (1) is
unique in the resulting collection. -/
theorem C1_add_id_unique_witness :
    (∀ t ∈ ([] : List Todo), t.id ≠ (([] : List Todo).length : Int) + 1) ∧
    (add_todo ['a'] [] Priority.medium none 0 []).todos.countP
      (fun t => decide
        (t.id = (add_todo ['a'] [] Priority.medium none 0 []).created.id)) = 1 :=
  ⟨by decide, C1_add_id_unique ['a'] [] Priority.medium none 0 [] (by decide)⟩

/-- C1 counterexample: in the reachable state add("a"), add("b"),
delete(1), the final add("c") returns a task whose id 2 is also held by
the remaining task: two stored tasks share the returned id. -/
theorem C1_counterexample :
    dupAdd.todos.countP (fun t => decide (t.id = dupAdd.created.id)) = 2 := by
  decide

/-- C2 counterexample: calling `add_todo` with an empty title does not fail:
it creates a task (with empty title) and persists the collection. -/
theorem C2_counterexample :
    (add_todo [] [] Priority.medium none 0 []).todos.length = 1 ∧
    (add_todo [] [] Priority.medium none 0 []).saved = true ∧
    (add_todo [] [] Priority.medium none 0 []).created.title = [] := by
  decide

/-- C2 (amended): the operation `add_todo` performs no validation of `title`: for
every argument list, the empty title included, it appends exactly one
new task carrying the given title and saves the collection. -/
theorem C2_add_no_validation (title desc : List Char) (p : Priority)
    (dd : Option (List Char)) (now : Nat) (todos : List Todo) :
    (add_todo title desc p dd now todos).todos =
      todos ++ [(add_todo title desc p dd now todos).created] ∧
    (add_todo title desc p dd now todos).created.title = title ∧
    (add_todo title desc p dd now todos).todos.length = todos.length + 1 ∧
    (add_todo title desc p dd now todos).saved = true :=
  ⟨rfl, rfl, by simp [add_todo], rfl⟩

/-- C3 counterexample: the operation `update_todo` applies any kwargs key that exists
on the record dict, `id` and `created_at` included: updating the stored
task with `id=99` changes its id from 1 to 99, and updating with
`created_at=42` changes its creation timestamp from 0 to 42. -/
theorem C3_counterexample :
    (update_todo 1 [FieldChange.setId 99] 7 [sampleTodo]).todos.map
      (fun t => t.id) = [99] ∧
    sampleTodo.id = 1 ∧
    (update_todo 1 [FieldChange.setCreatedAt 42] 7 [sampleTodo]).todos.map
      (fun t => t.created_at) = [42] ∧
    sampleTodo.created_at = 0 := by
  decide

/-- C3 (amended): provided the kwargs mapping contains no entry for the
`id` or `created_at` keys, `update_todo` leaves the `id` and
`created_at` fields of every stored task unchanged. -/
theorem C3_update_immutable (i : Int) (changes : List FieldChange)
    (now : Nat) (todos : List Todo)
    (h : ∀ c ∈ changes, touchesImmutable c = false) :
    (update_todo i changes now todos).todos.map
        (fun t => (t.id, t.created_at)) =
      todos.map (fun t => (t.id, t.created_at)) := by
  induction todos with
  | nil => rfl
  | cons hd rest ih =>
    by_cases hhd : hd.id = i
    · have hf := foldl_applyChange_immutable now changes hd h
      simp [update_todo, hhd, hf.1, hf.2]
    · simp [update_todo, hhd, ih]

/-- C3 witness: updating the title of the stored task with id 1 keeps
its id and creation timestamp. -/
theorem C3_update_immutable_witness :
    (∀ c ∈ [FieldChange.setTitle ['x']], touchesImmutable c = false) ∧
    (update_todo 1 [FieldChange.setTitle ['x']] 7 [sampleTodo]).todos.map
        (fun t => (t.id, t.created_at)) =
      [sampleTodo].map (fun t => (t.id, t.created_at)) :=
  ⟨by decide,
   C3_update_immutable 1 [FieldChange.setTitle ['x']] 7 [sampleTodo] (by decide)⟩

/-- C4: when no stored task has the requested id, `update_todo`,
`delete_todo` and `complete_todo` each return the collection unchanged
without saving and report the id as not found, and `show_todo` returns
nothing. -/
theorem C4_not_found_spec (i : Int) (ch : List FieldChange) (now : Nat)
    (todos : List Todo) (h : ∀ t ∈ todos, t.id ≠ i) :
    update_todo i ch now todos = ⟨todos, false, false⟩ ∧
    delete_todo i todos = ⟨todos, false, false⟩ ∧
    complete_todo i now todos = ⟨todos, false, false⟩ ∧
    show_todo i todos = none :=
  ⟨update_todo_not_found i ch now todos h,
   delete_todo_not_found i todos h,
   update_todo_not_found i [FieldChange.setStatus Status.completed] now todos h,
   show_todo_not_found i todos h⟩

/-- C4 witness: id 5 is absent from the one-task collection, and all
four operations leave it unchanged without saving. -/
theorem C4_not_found_spec_witness :
    (∀ t ∈ [sampleTodo], t.id ≠ 5) ∧
    (update_todo 5 [] 0 [sampleTodo] = ⟨[sampleTodo], false, false⟩ ∧
     delete_todo 5 [sampleTodo] = ⟨[sampleTodo], false, false⟩ ∧
     complete_todo 5 0 [sampleTodo] = ⟨[sampleTodo], false, false⟩ ∧
     show_todo 5 [sampleTodo] = none) :=
  ⟨by decide, C4_not_found_spec 5 [] 0 [sampleTodo] (by decide)⟩

/-- C5 counterexample: in the reachable state add("a"), add("b"),
delete(1), add("c") two stored tasks share id 2; deleting id 2 removes
exactly one of them, but a subsequent `show_todo 2` still finds a task
instead of failing. -/
theorem C5_counterexample :
    dupAdd.todos.countP (fun t => decide (t.id = 2)) = 2 ∧
    (delete_todo 2 dupAdd.todos).todos.length + 1 = dupAdd.todos.length ∧
    (show_todo 2 (delete_todo 2 dupAdd.todos).todos).isSome = true := by
  decide

/-- C5 (amended): when exactly one stored task has id `i`,
`delete_todo i` removes exactly one task and a subsequent `show_todo i`
fails as not found. -/
theorem C5_delete_spec (i : Int) (todos : List Todo)
    (h : todos.countP (fun t => decide (t.id = i)) = 1) :
    (delete_todo i todos).todos.length + 1 = todos.length ∧
    show_todo i (delete_todo i todos).todos = none := by
  have hpos : 0 < todos.countP (fun t => decide (t.id = i)) := by
    rw [h]; exact Nat.one_pos
  have hex : ∃ t ∈ todos, t.id = i := by
    simpa using List.countP_pos_iff.mp hpos
  refine ⟨delete_todo_length i todos hex, ?_⟩
  have hc := delete_todo_countP i todos
  rw [h] at hc
  apply List.find?_eq_none.mpr
  intro t ht
  have := List.countP_eq_zero.mp hc t ht
  simpa using this

/-- C5 witness: the one-task collection holds id 1 exactly once;
deleting it empties the collection and `show_todo 1` then fails. -/
theorem C5_delete_spec_witness :
    [sampleTodo].countP (fun t => decide (t.id = 1)) = 1 ∧
    ((delete_todo 1 [sampleTodo]).todos.length + 1 = [sampleTodo].length ∧
     show_todo 1 (delete_todo 1 [sampleTodo]).todos = none) :=
  ⟨by decide, C5_delete_spec 1 [sampleTodo] (by decide)⟩

/-- C6: the operation `complete_todo` is definitionally the `update_todo` call that
sets status to completed; on a collection holding the id it marks the
found task completed with `completed_at` stamped to the call time, and
a second `complete_todo` leaves the status completed. -/
theorem C6_complete_spec (i : Int) (now now2 : Nat) (todos : List Todo)
    (h : ∃ t ∈ todos, t.id = i) :
    complete_todo i now todos =
      update_todo i [FieldChange.setStatus Status.completed] now todos ∧
    (∃ t, show_todo i (complete_todo i now todos).todos = some t ∧
      t.status = Status.completed ∧ t.completed_at = some now) ∧
    (∃ t, show_todo i
        (complete_todo i now2 (complete_todo i now todos).todos).todos =
          some t ∧
      t.status = Status.completed) := by
  obtain ⟨t1, hshow1, hst1, hca1, hmem1, hid1⟩ :=
    complete_todo_found i now todos h
  refine ⟨rfl, ⟨t1, hshow1, hst1, hca1⟩, ?_⟩
  obtain ⟨t2, hshow2, hst2, _, _, _⟩ :=
    complete_todo_found i now2 (complete_todo i now todos).todos
      ⟨t1, hmem1, hid1⟩
  exact ⟨t2, hshow2, hst2⟩

/-- C6 witness: completing the stored task with id 1 at time 3 and
again at time 4. -/
theorem C6_complete_spec_witness :
    (∃ t ∈ [sampleTodo], t.id = 1) ∧
    (complete_todo 1 3 [sampleTodo] =
      update_todo 1 [FieldChange.setStatus Status.completed] 3 [sampleTodo] ∧
    (∃ t, show_todo 1 (complete_todo 1 3 [sampleTodo]).todos = some t ∧
      t.status = Status.completed ∧ t.completed_at = some 3) ∧
    (∃ t, show_todo 1
        (complete_todo 1 4 (complete_todo 1 3 [sampleTodo]).todos).todos =
          some t ∧
      t.status = Status.completed)) :=
  ⟨by decide, C6_complete_spec 1 3 4 [sampleTodo] (by decide)⟩

/-- C7: the loader `load_todos` returns the empty collection when the backing file
does not exist, and when the file exists but its content fails to
decode it reports the condition (the printed error message, modelled by
the flag) and returns the empty collection instead of failing. -/
theorem C7_load_spec (decode : List Char → Option (List Todo))
    (content : List Char) (h : decode content = none) :
    load_todos none decode = ([], false) ∧
    load_todos (some content) decode = ([], true) :=
  ⟨rfl, by simp [load_todos, h]⟩

/-- C7 witness: a decoder that rejects every content, applied to an
existing but unparsable file. -/
theorem C7_load_spec_witness :
    (fun _ : List Char => (none : Option (List Todo))) [] = none ∧
    (load_todos none (fun _ => (none : Option (List Todo))) = ([], false) ∧
     load_todos (some []) (fun _ => (none : Option (List Todo))) = ([], true)) :=
  ⟨rfl, C7_load_spec (fun _ => none) [] rfl⟩

/-- C8: the query `search_todos` keeps exactly the tasks whose lowered title or
lowered description contains the lowered query as a contiguous
substring, in original collection order (the result is a sublist of the
collection), and the empty query returns the whole collection. -/
theorem C8_search_spec (q : List Char) (todos : List Todo) :
    (∀ t, t ∈ search_todos q todos ↔ t ∈ todos ∧
      (isSubstr (lowerStr q) (lowerStr t.title) ||
        isSubstr (lowerStr q) (lowerStr t.description)) = true) ∧
    (search_todos q todos).Sublist todos ∧
    search_todos [] todos = todos := by
  refine ⟨?_, ?_, ?_⟩
  · intro t
    simp [search_todos, List.mem_filter, matchesQuery]
  · exact List.filter_sublist todos
  · apply List.filter_eq_self.mpr
    intro t ht
    simp [matchesQuery, lowerStr, isSubstr_nil_left]

/-- C10: the query `list_todos` with no filters is the identity; a single filter
keeps exactly the matching tasks; both filters keep exactly the tasks
matching their conjunction; and every result is a sublist of the
collection, so original order is preserved. -/
theorem C10_list_spec (s : Status) (p : Priority) (todos : List Todo) :
    list_todos none none todos = todos ∧
    list_todos (some s) none todos =
      todos.filter (fun t => decide (t.status = s)) ∧
    list_todos none (some p) todos =
      todos.filter (fun t => decide (t.priority = p)) ∧
    list_todos (some s) (some p) todos =
      todos.filter
        (fun t => decide (t.status = s) && decide (t.priority = p)) ∧
    (∀ os op, (list_todos os op todos).Sublist todos) := by
  refine ⟨rfl, rfl, rfl, ?_, ?_⟩
  · simp only [list_todos, List.filter_filter]
    apply List.filter_congr
    intro t ht
    exact Bool.and_comm _ _
  · intro os op
    cases os <;> cases op <;> simp only [list_todos] <;>
      first
        | exact List.Sublist.refl todos
        | exact List.filter_sublist todos
        | exact (List.filter_sublist _).trans (List.filter_sublist todos)

/-- C9: the aggregate `get_statistics` never divides by zero: on the empty collection
it reports `total = 0` with the completion rate not computed; whenever
`total > 0` the completion rate is exactly `completed / total * 100`;
and on the concrete three-task collection with one completed task the
rate rounds to 333 tenths of a percent, i.e. 33.3. -/
theorem C9_stats_spec (todos : List Todo)
    (h : 0 < (get_statistics todos).total) :
    ((get_statistics []).total = 0 ∧
      (get_statistics []).completion_rate = none) ∧
    (get_statistics todos).completion_rate =
      some (((get_statistics todos).completed : ℚ) /
        ((get_statistics todos).total : ℚ) * 100) ∧
    ((get_statistics ex3).total = 3 ∧
      (get_statistics ex3).completed = 1 ∧
      (get_statistics ex3).completion_rate.map rateTenths = some 333) := by
  refine ⟨⟨rfl, rfl⟩, ?_, rfl, by decide, ?_⟩
  · simp only [get_statistics] at h ⊢
    rw [if_pos h]
  · have hr : (get_statistics ex3).completion_rate =
        some ((1 : ℚ) / 3 * 100) := by
      simp [get_statistics, ex3]
    rw [hr, Option.map_some']
    congr 1
    rw [rateTenths, round_eq]
    norm_num

/-- C9 witness: the three-task collection has a positive total, so the
theorem applies to it. -/
theorem C9_stats_spec_witness :
    0 < (get_statistics ex3).total ∧
    (((get_statistics []).total = 0 ∧
      (get_statistics []).completion_rate = none) ∧
    (get_statistics ex3).completion_rate =
      some (((get_statistics ex3).completed : ℚ) /
        ((get_statistics ex3).total : ℚ) * 100) ∧
    ((get_statistics ex3).total = 3 ∧
      (get_statistics ex3).completed = 1 ∧
      (get_statistics ex3).completion_rate.map rateTenths = some 333)) :=
  ⟨by decide, C9_stats_spec ex3 (by decide)⟩
